import Mathlib

/-!
Verification of the beetmover destination-resolution and manifest-generation
engine (`src/beetmoverscript/src/beetmoverscript/{task,utils,constants}.py`).

Python code is shallowly embedded: dictionaries become association lists,
fallible code returns `Except PyError`, and Python exceptions become
constructors of `PyError`.  Each definition carries a doc comment naming the
source function it embeds.
-/

namespace Beetmover

/-- Python exceptions raised by the embedded code.  `scriptWorkerTaskException`
and `taskVerificationError` are the verification errors of the scriptworker
framework; `indexError`, `keyError` and `valueError` are the built-in Python
exceptions; `parserError` stands for `arrow`'s date-parsing failure. -/
inductive PyError where
  | scriptWorkerTaskException (msg : String)
  | taskVerificationError (msg : String)
  | indexError
  | keyError
  | valueError (msg : String)
  | parserError
deriving DecidableEq, Repr

deriving instance DecidableEq for Except

/-- Converts an optional value to `Except`, raising `e` on `none`
(embeds a Python `dict[key]` / `list[i]` access that can fail). -/
def exceptOfOption {α : Type} (e : PyError) : Option α → Except PyError α
  | some a => .ok a
  | none => .error e

/-- True exactly on `Except.error (PyError.taskVerificationError _)`. -/
def isTaskVerificationError {α : Type} : Except PyError α → Bool
  | .error (.taskVerificationError _) => true
  | _ => false

/-- List-of-characters prefix test. -/
def isPrefixList : List Char → List Char → Bool
  | [], _ => true
  | _ :: _, [] => false
  | p :: ps, c :: cs => p == c && isPrefixList ps cs

/-- Strips a literal prefix, returning the rest of the input. -/
def stripPrefixList : List Char → List Char → Option (List Char)
  | [], s => some s
  | _ :: _, [] => none
  | p :: ps, c :: cs => if p == c then stripPrefixList ps cs else none

/-- Occurrence of `sub` anywhere in `s` (character lists). -/
def containsList (sub : List Char) : List Char → Bool
  | [] => isPrefixList sub []
  | c :: rest => isPrefixList sub (c :: rest) || containsList sub rest

/-- Python `sub in s` substring test (always true for the empty `sub`). -/
def strContains (s sub : String) : Bool := containsList sub.data s.data

/-- Python `s.startswith(p)`. -/
def strStartsWith (s p : String) : Bool := isPrefixList p.data s.data

/-- Python `s.endswith(p)`. -/
def strEndsWith (s p : String) : Bool := isPrefixList p.data.reverse s.data.reverse

/-- True when the string is empty. -/
def strIsEmpty (s : String) : Bool := s.data.isEmpty

/-- Python `s.lower()` (ASCII, as produced by the pipeline identifiers). -/
def strToLower (s : String) : String := String.mk (s.data.map Char.toLower)

/-- Python `sep.join(xs)`. -/
def strIntercalate (sep : String) (xs : List String) : String :=
  String.mk (List.intercalate sep.data (xs.map String.data))

/-- Splitting on a single-character separator, with Python `str.split`
semantics. -/
def splitOnChar (sep : Char) : List Char → List (List Char)
  | [] => [[]]
  | c :: rest =>
    if c == sep then [] :: splitOnChar sep rest
    else
      match splitOnChar sep rest with
      | [] => [[c]]
      | g :: gs => (c :: g) :: gs

/-- Python `s.split(sep)`; the embedded code only splits on the
single-character separators `":"`, `"/"` and `"-"`. -/
def strSplitOn (s sep : String) : List String :=
  match sep.data with
  | [c] => (splitOnChar c s.data).map String.mk
  | _ => [s]

/-- Python `repr` of a string, as used by `"{}".format(...)` on lists
(single-quoted; the embedding covers strings without quotes in them). -/
def pyReprStr (s : String) : String := "\x27" ++ s ++ "\x27"

/-- Python `str.format` rendering of a list of strings, e.g. `['a', 'b']`. -/
def pyReprStrList (xs : List String) : String :=
  "[" ++ strIntercalate ", " (xs.map pyReprStr) ++ "]"

/-- Python `s.split(":")[-1]` (`split` always returns a non-empty list). -/
def lastColonPart (s : String) : String := (strSplitOn s ":").getLastD ""

/-- Lexicographic comparison of character lists by code point, the order
Python uses to sort strings. -/
def charListLeb : List Char → List Char → Bool
  | [], _ => true
  | _ :: _, [] => false
  | a :: as, b :: bs =>
    if a < b then true
    else if b < a then false
    else charListLeb as bs

/-- Python `<=` on strings (lexicographic by code point). -/
def strLeb (a b : String) : Bool := charListLeb a.data b.data

/-- Lookup in a Python dict modelled as an association list
(`d.get(k)`; first binding wins, as dict keys are unique). -/
def pyDictFind {β : Type} (d : List (String × β)) (k : String) : Option β :=
  (d.find? (fun q => q.1 == k)).map Prod.snd

/-- Python `d[k]`: raises `KeyError` when the key is absent. -/
def pyDictGet {β : Type} (d : List (String × β)) (k : String) : Except PyError β :=
  exceptOfOption .keyError (pyDictFind d k)

/-- Python `d.get(k, default)`. -/
def pyDictGetD {β : Type} (d : List (String × β)) (k : String) (dflt : β) : β :=
  (pyDictFind d k).getD dflt

/-- Drops trailing `'/'` characters (the `head.rstrip('/')` step of
`os.path.split`). -/
def rstripSlashes (s : String) : String :=
  String.mk ((s.data.reverse.dropWhile (fun c => c == '/')).reverse)

/-- Python `os.path.split` (posix): splits off the component after the last
slash; the head keeps its slashes only when it consists of slashes alone. -/
def os_path_split (p : String) : String × String :=
  let parts := strSplitOn p "/"
  let tail := parts.getLastD ""
  let hs := parts.dropLast
  if hs.isEmpty then ("", tail)
  else
    let head0 := strIntercalate "/" hs ++ "/"
    (if hs.all (fun x => strIsEmpty x) then head0 else rstripSlashes head0, tail)

/-- Python `os.path.basename`. -/
def os_path_basename (p : String) : String := (os_path_split p).2

/-- Numeric value of a digit string (used for parsed date fields). -/
def natOfDigits (s : String) : Nat :=
  s.data.foldl (fun a c => a * 10 + (c.toNat - '0'.toNat)) 0

/-- Zero-pads the decimal rendering of `n` to width `w` (arrow's `YYYY`/`MM`/...
format tokens). -/
def padNum (w n : Nat) : String :=
  let s := toString n
  String.mk (List.replicate (w - s.length) '0') ++ s

/-- Python `str.capitalize()`: first character upper-cased, rest lower-cased. -/
def pyCapitalize (s : String) : String :=
  match s.data with
  | [] => ""
  | c :: rest => String.mk (c.toUpper :: rest.map Char.toLower)

/-! ### Static tables (`constants.py`) -/

/-- `constants.py` `STAGE_PLATFORM_MAP` (lines 30-46). -/
def STAGE_PLATFORM_MAP : List (String × String) := [
  ("linux", "linux-i686"),
  ("linux-devedition", "linux-i686"),
  ("linux64", "linux-x86_64"),
  ("linux64-asan-reporter", "linux-x86_64-asan-reporter"),
  ("linux64-devedition", "linux-x86_64"),
  ("linux64-pinebuild", "linux-x86_64"),
  ("macosx64", "mac"),
  ("macosx64-asan-reporter", "mac-asan-reporter"),
  ("macosx64-devedition", "mac"),
  ("macosx64-pinebuild", "mac"),
  ("win32-devedition", "win32"),
  ("win64-devedition", "win64"),
  ("win64-pinebuild", "win64"),
  ("win64-aarch64-devedition", "win64-aarch64"),
  ("win64-aarch64-pinebuild", "win64-aarch64")]

/-- `constants.py` `NORMALIZED_BALROG_PLATFORMS` (lines 48-59). -/
def NORMALIZED_BALROG_PLATFORMS : List (String × String) := [
  ("linux-devedition", "linux"),
  ("linux64-devedition", "linux64"),
  ("linux64-pinebuild", "linux64"),
  ("macosx64-devedition", "macosx64"),
  ("macosx64-pinebuild", "macosx64"),
  ("win32-devedition", "win32"),
  ("win64-devedition", "win64"),
  ("win64-pinebuild", "win64"),
  ("win64-aarch64-devedition", "win64-aarch64"),
  ("win64-aarch64-pinebuild", "win64-aarch64")]

/-- `constants.py` `NORMALIZED_FILENAME_PLATFORMS` (lines 61-73): a copy of the
Balrog table updated with Android entries (key sets are disjoint, so list
append models `dict.update`). -/
def NORMALIZED_FILENAME_PLATFORMS : List (String × String) :=
  NORMALIZED_BALROG_PLATFORMS ++ [
  ("android", "android-arm"),
  ("android-api-15", "android-arm"),
  ("android-api-15-old-id", "android-arm"),
  ("android-api-16", "android-arm"),
  ("android-api-16-old-id", "android-arm"),
  ("android-x86", "android-i386"),
  ("android-x86-old-id", "android-i386"),
  ("android-aarch64", "android-aarch64")]

/-- `constants.py` `PROMOTION_ACTIONS` (line 81). -/
def PROMOTION_ACTIONS : List String := ["push-to-candidates"]

/-- `constants.py` `RELEASE_ACTIONS` (line 83). -/
def RELEASE_ACTIONS : List String := ["push-to-releases"]

/-- `constants.py` `DIRECT_RELEASE_ACTIONS` (line 85). -/
def DIRECT_RELEASE_ACTIONS : List String := ["direct-push-to-bucket"]

/-- `constants.py` `PARTNER_REPACK_ACTIONS` (line 87). -/
def PARTNER_REPACK_ACTIONS : List String := ["push-to-partner"]

/-- `constants.py` `MAVEN_ACTIONS` (line 89). -/
def MAVEN_ACTIONS : List String := ["push-to-maven"]

/-- `constants.py` `ARTIFACT_REGISTRY_ACTIONS` (line 91). -/
def ARTIFACT_REGISTRY_ACTIONS : List String := ["import-artifacts"]

/-- `utils.is_release_action` (utils.py lines 104-108). -/
def is_release_action (action : String) : Bool := RELEASE_ACTIONS.contains action

/-- `utils.is_promotion_action` (utils.py lines 118-122). -/
def is_promotion_action (action : String) : Bool := PROMOTION_ACTIONS.contains action

/-- `utils.is_partner_action` (utils.py lines 125-129). -/
def is_partner_action (action : String) : Bool := PARTNER_REPACK_ACTIONS.contains action

/-! ### Data model -/

/-- Per-(cloud, release-type) configuration record (`script_config["clouds"]`
values).  `enabled` is read with `config["enabled"]` in `get_task_resource`
(KeyError when absent), `fail_task_on_error` with `.get(...)`. -/
structure BucketConfig where
  enabled : Option Bool
  fail_task_on_error : Option Bool
deriving DecidableEq, Repr

/-- `script_config["clouds"]`: cloud name to release-type to config. -/
def CloudsConfig : Type := List (String × List (String × BucketConfig))

/-- The slice of the script configuration the embedded functions read. -/
structure Config where
  taskcluster_scope_prefixes : List String
  clouds : CloudsConfig

/-- `task.payload.releaseProperties` as found in the payload;
`appName` presence is checked explicitly in `get_product_name`, and
`platform` is read with `.get("platform", "")` in `get_release_props`. -/
structure PayloadReleaseProps where
  appName : Option String
  platform : Option String
  branch : String
  appVersion : String
  buildid : String
deriving DecidableEq, Repr

/-- Output of `get_release_props`: the payload properties extended with the
normalized `platform` and the raw `stage_platform`. -/
structure ReleaseProps where
  appName : Option String
  platform : String
  stage_platform : String
  branch : String
  appVersion : String
  buildid : String
deriving DecidableEq, Repr

/-- One element of `task.extra.partials` (only `artifact_name` is used as the
dict key by `get_partials_props`). -/
structure PartialEntry where
  artifact_name : String
deriving DecidableEq, Repr

/-- One element of `task.payload.upstreamArtifacts`; only the optional
`locale` key matters for template-argument building. -/
structure UpstreamArtifact where
  locale : Option String
deriving DecidableEq, Repr

/-- The slice of `task.payload` the embedded functions read.  Optional fields
model keys that may be absent from the payload dict. -/
structure TaskPayload where
  upload_date : String
  version : Option String
  build_number : Option String
  product : Option String
  locale : Option String
  upstreamArtifacts : List UpstreamArtifact
  releaseProperties : Option PayloadReleaseProps
deriving DecidableEq, Repr

/-- The task descriptor: scopes, payload and `extra.partials`. -/
structure Task where
  scopes : List String
  payload : TaskPayload
  extra_partials : List PartialEntry
deriving DecidableEq, Repr

/-- Per-path config of an artifact-map entry.  The source dicts carry more
keys; only `destinations` is read by the embedded functions, and a present
config is modelled as truthy (artifact maps never carry empty path configs). -/
structure FileConfig where
  destinations : List String
deriving DecidableEq, Repr

/-- One entry of `task.payload.artifactMap`:
`{taskId, locale, paths: {sourcePath: {destinations: [...]}}}`. -/
structure ArtifactMapEntry where
  taskId : String
  locale : String
  paths : List (String × FileConfig)
deriving DecidableEq, Repr

/-! ### Scope resolver (`task.py`) -/

/-- `task._get_scope_prefixes` (task.py lines 49-52). -/
def _get_scope_prefixes (config : Config) (sub_namespace : String) : List String :=
  let ps := config.taskcluster_scope_prefixes.map
    (fun q => if strEndsWith q ":" then q else q ++ ":")
  ps.map (fun q => q ++ sub_namespace ++ ":")

/-- `task._get_action_prefixes` (task.py lines 45-46). -/
def _get_action_prefixes (config : Config) : List String :=
  _get_scope_prefixes config "action"

/-- `task._get_bucket_prefixes` (task.py lines 41-42). -/
def _get_bucket_prefixes (config : Config) : List String :=
  _get_scope_prefixes config "bucket"

/-- `task._check_scopes_exist_and_all_have_the_same_prefix` (task.py lines
61-66): the `for ... else` raises unless some allowed prefix starts every
matched scope (vacuously satisfied by an empty scope list). -/
def _check_scopes_exist_and_all_have_the_same_prefix
    (scopes prefixes : List String) : Except PyError Unit :=
  if prefixes.any (fun q => scopes.all (fun s => strStartsWith s q)) then .ok ()
  else .error (.scriptWorkerTaskException
    ("Scopes must exist and all have the same prefix. Given scopes: " ++
      pyReprStrList scopes ++ ". Allowed prefixes: " ++ pyReprStrList prefixes))

/-- `task._extract_scopes_from_unique_prefix` (task.py lines 55-58): the double
list comprehension repeats a scope once per prefix that starts it. -/
def _extract_scopes_from_unique_prefix
    (scopes prefixes : List String) : Except PyError (List String) :=
  let matched := scopes.flatMap
    (fun s => (prefixes.filter (fun q => strStartsWith s q)).map (fun _ => s))
  match _check_scopes_exist_and_all_have_the_same_prefix matched prefixes with
  | .error e => .error e
  | .ok _ => .ok matched

/-- `re.search("^[0-9A-Za-z_-]+$", s)` is a match: all characters of `s` are
in the class and `s` is non-empty (`$` also matches just before one trailing
newline). -/
def identifier_search (s : String) : Bool :=
  let core := fun (t : List Char) =>
    !t.isEmpty && t.all (fun c => c.isAlphanum || c == '_' || c == '-')
  core s.data ||
    (match s.data.getLast? with
     | some c => c == '\n' && core s.data.dropLast
     | none => false)

/-- Inner loop of the `available_resources` computation of
`task.get_task_resource` (task.py lines 84-88): scans one cloud's release
types, adding those whose config is enabled (`config["enabled"]` raises
`KeyError` when the key is missing). -/
def collect_bucket_resources (acc : List String) :
    List (String × BucketConfig) → Except PyError (List String)
  | [] => .ok acc
  | (release_type, bc) :: rest =>
    match bc.enabled with
    | none => .error .keyError
    | some b =>
      collect_bucket_resources
        (if b && !acc.contains release_type then acc ++ [release_type] else acc) rest

/-- Outer loop of the `available_resources` computation of
`task.get_task_resource` (task.py lines 84-88). -/
def collect_available_resources (acc : List String) :
    CloudsConfig → Except PyError (List String)
  | [] => .ok acc
  | (_, buckets) :: rest => do
    let acc2 ← collect_bucket_resources acc buckets
    collect_available_resources acc2 rest

/-- `task.get_task_resource` (task.py lines 69-96): extracts the cloud
resource from the task scopes, batching violation messages; note that
`resources[0]` raises `IndexError` when no scope matched. -/
def get_task_resource (task_scopes : List String) (resource_type : String)
    (config : Config) : Except PyError String := do
  let prefixes := _get_scope_prefixes config resource_type
  let scopes ← _extract_scopes_from_unique_prefix task_scopes prefixes
  let resources := scopes.flatMap
    (fun s => (prefixes.filter (fun q => strStartsWith s q)).map
      (fun _ => lastColonPart s))
  let countMsgs := if resources.length ≠ 1 then ["Only one resource can be used"] else []
  match resources with
  | [] => .error .indexError
  | resource :: _ => do
    let malformedMsgs :=
      if identifier_search resource then []
      else ["Resource name `" ++ resource ++ "` is malformed"]
    let avail ← collect_available_resources [] config.clouds
    let availMsgs :=
      if avail.contains resource then [] else ["Invalid resource scope: " ++ resource]
    let messages := countMsgs ++ malformedMsgs ++ availMsgs
    if messages.isEmpty then .ok resource
    else .error (.scriptWorkerTaskException (strIntercalate "\n" messages))

/-- `task.get_task_action` (task.py lines 111-129): extracts the action from
the task scopes, batching violation messages; note that `actions[0]` raises
`IndexError` when no scope matched. -/
def get_task_action (task_scopes : List String) (config : Config)
    (valid_actions : Option (List String)) : Except PyError String := do
  let prefixes := _get_action_prefixes config
  let scopes ← _extract_scopes_from_unique_prefix task_scopes prefixes
  let actions := scopes.flatMap
    (fun s => (prefixes.filter (fun q => strStartsWith s q)).map
      (fun _ => lastColonPart s))
  let countMsgs := if actions.length ≠ 1 then ["Only one action type can be used"] else []
  match actions with
  | [] => .error .indexError
  | action :: _ =>
    let validMsgs :=
      match valid_actions with
      | some va => if va.contains action then [] else ["Invalid action scope"]
      | none => []
    let messages := countMsgs ++ validMsgs
    if messages.isEmpty then .ok action
    else .error (.scriptWorkerTaskException (strIntercalate "\n" messages))

/-! ### Release properties (`task.get_release_props`) -/

/-- `task.get_release_props` (task.py lines 199-213): raises when the payload
has no (truthy) `releaseProperties`; otherwise normalizes `platform` through
the mapping (identity fallback) and records the raw value as
`stage_platform`. -/
def get_release_props (payload_properties : Option PayloadReleaseProps)
    (platform_mapping : List (String × String)) : Except PyError ReleaseProps :=
  match payload_properties with
  | none => .error (.scriptWorkerTaskException
      "could not determine release props file from task payload")
  | some props =>
    let stage_platform := props.platform.getD ""
    .ok { appName := props.appName,
          platform := pyDictGetD platform_mapping stage_platform stage_platform,
          stage_platform := stage_platform,
          branch := props.branch,
          appVersion := props.appVersion,
          buildid := props.buildid }

/-! ### Maven artifact-map version check (`task.check_maven_artifact_map`) -/

/-- Innermost check of `task.check_maven_artifact_map` (task.py lines
148-154) for one destination: the last folder must equal the version and the
file name must contain it. -/
def checkMavenDest (version dest : String) : Except PyError Unit :=
  let split := os_path_split dest
  let dest_folder := split.1
  let dest_file := split.2
  let last_folder := os_path_basename dest_folder
  if version ≠ last_folder then
    .error (.scriptWorkerTaskException
      ("Name of last folder \x27" ++ last_folder ++ "\x27 in path \x27" ++ dest ++
        "\x27 does not match payload version \x27" ++ version ++ "\x27"))
  else if !strContains dest_file version then
    .error (.scriptWorkerTaskException
      ("Cannot find version \x27" ++ version ++ "\x27 in file name \x27" ++ dest_file ++
        "\x27. Path under test: " ++ dest))
  else .ok ()

/-- Loop of `task.check_maven_artifact_map` over one destination list. -/
def checkMavenDests (version : String) : List String → Except PyError Unit
  | [] => .ok ()
  | d :: ds =>
    match checkMavenDest version d with
    | .error e => .error e
    | .ok _ => checkMavenDests version ds

/-- Loop of `task.check_maven_artifact_map` over one entry's
`paths.values()`. -/
def checkMavenPaths (version : String) :
    List (String × FileConfig) → Except PyError Unit
  | [] => .ok ()
  | (_, cfg) :: rest =>
    match checkMavenDests version cfg.destinations with
    | .error e => .error e
    | .ok _ => checkMavenPaths version rest

/-- `task.check_maven_artifact_map` (task.py lines 144-154). -/
def check_maven_artifact_map (artifactMap : List ArtifactMapEntry)
    (version : String) : Except PyError Unit :=
  match artifactMap with
  | [] => .ok ()
  | entry :: rest =>
    match checkMavenPaths version entry.paths with
    | .error e => .error e
    | .ok _ => check_maven_artifact_map rest version

/-! ### Checksums manifest (`task.generate_checksums_manifest`) -/

/-- Relation sorting checksum items by artifact name, the effect of Python's
`sorted(checksums_dict.items())` on a dict (keys are unique, so tuple
comparison never reaches the values). -/
def checksumLe (a b : String × List (String × String)) : Prop := strLeb a.1 b.1 = true

instance : DecidableRel checksumLe :=
  fun a b => inferInstanceAs (Decidable (strLeb a.1 b.1 = true))

/-- Python `sorted(checksums_dict.items())` (task.py line 160). -/
def sortChecksumItems (c : List (String × List (String × String))) :
    List (String × List (String × String)) :=
  List.insertionSort checksumLe c

/-- Inner loop of `task.generate_checksums_manifest` (task.py lines 161-162):
one line `"{digest} {algo} {size} {artifact}"` per configured algorithm
(`values[algo]` and `values["size"]` raise `KeyError` when absent). -/
def checksumLinesFor (artifact : String) (values : List (String × String)) :
    List String → Except PyError (List String)
  | [] => .ok []
  | algo :: rest =>
    match pyDictGet values algo with
    | .error e => .error e
    | .ok digest =>
      match pyDictGet values "size" with
      | .error e => .error e
      | .ok size =>
        match checksumLinesFor artifact values rest with
        | .error e => .error e
        | .ok restLines =>
          .ok ((digest ++ " " ++ algo ++ " " ++ size ++ " " ++ artifact) :: restLines)

/-- Outer loop of `task.generate_checksums_manifest` over the sorted items. -/
def buildChecksumContent (checksums_digests : List String) :
    List (String × List (String × String)) → Except PyError (List String)
  | [] => .ok []
  | (artifact, values) :: rest =>
    match checksumLinesFor artifact values checksums_digests with
    | .error e => .error e
    | .ok lines =>
      match buildChecksumContent checksums_digests rest with
      | .error e => .error e
      | .ok restLines => .ok (lines ++ restLines)

/-- `task.generate_checksums_manifest` (task.py lines 157-164): serializes the
sorted checksum entries, one line per (artifact, algorithm) pair, joined with
newlines. -/
def generate_checksums_manifest (checksums : List (String × List (String × String)))
    (checksums_digests : List String) : Except PyError String :=
  match buildChecksumContent checksums_digests (sortChecksumItems checksums) with
  | .error e => .error e
  | .ok content => .ok (strIntercalate "\n" content)

/-- The manifest lines with total (defaulted) lookups; equals the manifest
content on well-formed checksum dicts. -/
def manifestLines (checksums : List (String × List (String × String)))
    (checksums_digests : List String) : List String :=
  (sortChecksumItems checksums).flatMap
    (fun p => checksums_digests.map
      (fun algo => pyDictGetD p.2 algo "" ++ " " ++ algo ++ " " ++
        pyDictGetD p.2 "size" "" ++ " " ++ p.1))

/-- Well-formedness of a checksums dict for the configured algorithms: every
artifact's dict has every algorithm and a `"size"` entry. -/
def ChecksumsWF (checksums : List (String × List (String × String)))
    (checksums_digests : List String) : Prop :=
  ∀ p ∈ checksums,
    (∀ algo ∈ checksums_digests, (pyDictFind p.2 algo).isSome = true) ∧
      (pyDictFind p.2 "size").isSome = true

instance (c : List (String × List (String × String))) (ds : List String) :
    Decidable (ChecksumsWF c ds) :=
  inferInstanceAs (Decidable (∀ p ∈ c, _ ∧ _))

/-! ### Upload date (`utils.generate_beetmover_template_args`, lines 196-207) -/

/-- A parsed calendar date-time (UTC). -/
structure DateTime where
  year : Nat
  month : Nat
  day : Nat
  hour : Nat
  minute : Nat
  second : Nat
deriving DecidableEq, Repr

/-- Python `float(s)` restricted to the non-negative integral timestamps the
pipeline produces (`params["pushdate"]`): digit-only strings parse, anything
else raises `ValueError` and falls to the date-pattern branch. -/
def pyFloatNat? (s : String) : Option Nat :=
  if !(strIsEmpty s) && s.data.all Char.isDigit then some (natOfDigits s) else none

/-- Civil date from days since 1970-01-01 (proleptic Gregorian, Howard
Hinnant's algorithm), as `arrow.get` applies to an epoch timestamp. -/
def civilFromDays (days : Nat) : Nat × Nat × Nat :=
  let z := days + 719468
  let era := z / 146097
  let doe := z % 146097
  let yoe := (doe - doe / 1460 + doe / 36524 - doe / 146096) / 365
  let y := yoe + era * 400
  let doy := doe - (365 * yoe + yoe / 4 - yoe / 100)
  let mp := (5 * doy + 2) / 153
  let d := doy - (153 * mp + 2) / 5 + 1
  let m := if mp < 10 then mp + 3 else mp - 9
  (if m ≤ 2 then y + 1 else y, m, d)

/-- UTC date-time of a non-negative Unix epoch timestamp. -/
def dateTimeFromEpoch (n : Nat) : DateTime :=
  let days := n / 86400
  let rem := n % 86400
  let ymd := civilFromDays days
  { year := ymd.1, month := ymd.2.1, day := ymd.2.2,
    hour := rem / 3600, minute := rem % 3600 / 60, second := rem % 60 }

/-- Leap year in the Gregorian calendar. -/
def isLeap (y : Nat) : Bool := y % 4 == 0 && (y % 100 != 0 || y % 400 == 0)

/-- Number of days of a month. -/
def daysInMonth (y m : Nat) : Nat :=
  if m == 2 then (if isLeap y then 29 else 28)
  else if m == 4 || m == 6 || m == 9 || m == 11 then 30
  else 31

/-- `arrow.get(s, "YYYY-MM-DD-HH-mm-ss")`: six dash-separated zero-padded
numeric fields forming a valid date-time; anything else raises a parser
error. -/
def parseArrowPattern (s : String) : Option DateTime :=
  match strSplitOn s "-" with
  | [ys, ms, ds, hs, mins, ss] =>
    if ys.length == 4 && ys.data.all Char.isDigit &&
        ms.length == 2 && ms.data.all Char.isDigit &&
        ds.length == 2 && ds.data.all Char.isDigit &&
        hs.length == 2 && hs.data.all Char.isDigit &&
        mins.length == 2 && mins.data.all Char.isDigit &&
        ss.length == 2 && ss.data.all Char.isDigit then
      let y := natOfDigits ys
      let mo := natOfDigits ms
      let d := natOfDigits ds
      let h := natOfDigits hs
      let mi := natOfDigits mins
      let sec := natOfDigits ss
      if 1 ≤ mo && mo ≤ 12 && 1 ≤ d && d ≤ daysInMonth y mo &&
          h ≤ 23 && mi ≤ 59 && sec ≤ 59 then
        some { year := y, month := mo, day := d, hour := h, minute := mi, second := sec }
      else none
    else none
  | _ => none

/-- Arrow's `.format("YYYY/MM/YYYY-MM-DD-HH-mm-ss")` (task payload upload
date rendering, utils.py line 207). -/
def arrowFormatUploadDate (dt : DateTime) : String :=
  let y4 := padNum 4 dt.year
  let mo2 := padNum 2 dt.month
  let d2 := padNum 2 dt.day
  let h2 := padNum 2 dt.hour
  let mi2 := padNum 2 dt.minute
  let s2 := padNum 2 dt.second
  y4 ++ "/" ++ mo2 ++ "/" ++ y4 ++ "-" ++ mo2 ++ "-" ++ d2 ++ "-" ++ h2 ++
    "-" ++ mi2 ++ "-" ++ s2

/-- Upload-date handling of `utils.generate_beetmover_template_args`
(utils.py lines 196-207): try a numeric (epoch) parse; on `ValueError` take
the last slash-separated segment and parse it with the explicit
`YYYY-MM-DD-HH-mm-ss` pattern; always reformat with
`"YYYY/MM/YYYY-MM-DD-HH-mm-ss"`. -/
def format_upload_date (upload_date : String) : Except PyError String :=
  match pyFloatNat? upload_date with
  | some n => .ok (arrowFormatUploadDate (dateTimeFromEpoch n))
  | none =>
    let last := (strSplitOn upload_date "/").getLastD ""
    match parseArrowPattern last with
    | some dt => .ok (arrowFormatUploadDate dt)
    | none => .error .parserError

/-! ### Product name and template arguments (`utils.py`) -/

/-- `utils.get_partials_props` (utils.py lines 288-292). -/
def get_partials_props (task : Task) : List (String × PartialEntry) :=
  task.extra_partials.map (fun p => (p.artifact_name, p))

/-- Dynamic-flavor scan of `utils.get_product_name` (utils.py lines 182-187):
first of `devedition`, `pinebuild` occurring in the stage platform. -/
def findDynamicPlatform (stage_platform : String) : Option String :=
  if strContains stage_platform "devedition" then some "devedition"
  else if strContains stage_platform "pinebuild" then some "pinebuild"
  else none

/-- `utils.get_product_name` (utils.py lines 157-189): `push-to-releases`
reads `payload.product`; other actions derive the name from
`releaseProperties.appName`, collapsing the dynamic build flavors to a
flavor name whose casing follows the app name's first letter. -/
def get_product_name (task : Task) (config : Config)
    (lowercase_app_name : Bool) : Except PyError String := do
  let action ← get_task_action task.scopes config none
  if action == "push-to-releases" then
    match task.payload.product with
    | none => .error (.valueError "product not found in task payload.")
    | some p => .ok (strToLower p)
  else
    match task.payload.releaseProperties with
    | none => .error (.valueError "releaseProperties not found in task payload.")
    | some rp =>
      match rp.appName with
      | none => .error (.valueError "appName not found in task payload.")
      | some appName0 => do
        let release_props ← get_release_props (some rp) STAGE_PLATFORM_MAP
        let appName := if lowercase_app_name then strToLower appName0 else appName0
        match findDynamicPlatform release_props.stage_platform with
        | some dyn =>
          match appName.data with
          | [] => .error .indexError
          | c :: _ => if c.isUpper then .ok (pyCapitalize dyn) else .ok dyn
        | none => .ok appName

/-- `utils._check_locale_consistency` (utils.py lines 248-264). -/
def _check_locale_consistency (locale_in_payload : String)
    (uniques_locales_in_upstream_artifacts : List String) : Except PyError Unit :=
  if uniques_locales_in_upstream_artifacts.length > 1 then
    .error (.taskVerificationError
      ("`task.payload.locale` is defined (\"" ++ locale_in_payload ++
        "\") but too many locales set in `task.payload.upstreamArtifacts` (" ++
        pyReprStrList uniques_locales_in_upstream_artifacts ++ ")"))
  else
    match uniques_locales_in_upstream_artifacts with
    | [locale_in_upstream_artifacts] =>
      if locale_in_payload ≠ locale_in_upstream_artifacts then
        .error (.taskVerificationError
          ("`task.payload.locale` (\"" ++ locale_in_payload ++
            "\") does not match the one set in `task.payload.upstreamArtifacts` (\"" ++
            locale_in_upstream_artifacts ++ "\")"))
      else .ok ()
    | _ => .ok ()

/-- Python `sorted(list(set(xs)))` on strings. -/
def sortedUnique (xs : List String) : List String :=
  List.insertionSort (fun a b => strLeb a b = true) xs.dedup

/-- Locale resolution of `utils.generate_beetmover_template_args` (utils.py
lines 225-234): collect the locales declared across `upstreamArtifacts`;
reconcile with a payload-level `locale` when both are present. -/
def resolve_locales (payload_locale : Option String)
    (upstream_locales : List (Option String)) :
    Except PyError (Option (List String)) :=
  let locales_in_upstream_artifacts := upstream_locales.filterMap id
  let uniques := sortedUnique locales_in_upstream_artifacts
  match payload_locale with
  | some l =>
    if !uniques.isEmpty then
      match _check_locale_consistency l uniques with
      | .error e => .error e
      | .ok _ => .ok (some uniques)
    else .ok (some [l])
  | none => if !uniques.isEmpty then .ok (some uniques) else .ok none

/-- Template-key selection of `utils.generate_beetmover_template_args`
(utils.py lines 236-243): `"{product}_{bucket}_repacks"` when the locales
value is present, non-empty and disjoint from `{"en-US", "multi"}`, else
`"{product}_{bucket}"`. -/
def select_template_key (product_name tmpl_bucket : String)
    (locales : Option (List String)) : String :=
  match locales with
  | some ls =>
    if !ls.isEmpty && ls.all (fun l => !(l == "en-US") && !(l == "multi")) then
      product_name ++ "_" ++ tmpl_bucket ++ "_repacks"
    else product_name ++ "_" ++ tmpl_bucket
  | none => product_name ++ "_" ++ tmpl_bucket

/-- The template-argument record produced by
`utils.generate_beetmover_template_args`. -/
structure TmplArgs where
  upload_date : String
  version : String
  branch : String
  product : String
  stage_platform : String
  platform : String
  buildid : String
  partials : List (String × PartialEntry)
  filename_platform : String
  build_number : Option String
  locales : Option (List String)
  template_key : String
deriving DecidableEq, Repr

/-- `utils.generate_beetmover_template_args` (utils.py lines 192-245):
formats the upload date, copies the release properties (with the
filename-platform identity-fallback lookup), overrides `version` and
`build_number` for promotion/release/partner actions, resolves locales, and
selects the template key. -/
def generate_beetmover_template_args (task : Task) (release_props : ReleaseProps)
    (action : String) (config : Config) : Except PyError TmplArgs := do
  let formatted_upload_date ← format_upload_date task.payload.upload_date
  let appName ← exceptOfOption PyError.keyError release_props.appName
  let hasOverride :=
    is_promotion_action action || is_release_action action || is_partner_action action
  let version ←
    if hasOverride then exceptOfOption PyError.keyError task.payload.version
    else pure release_props.appVersion
  let build_number ←
    if hasOverride then do
      let bn ← exceptOfOption PyError.keyError task.payload.build_number
      pure (some bn)
    else pure none
  let tmpl_bucket := (strSplitOn action "-").getLastD ""
  let locales ← resolve_locales task.payload.locale
    (task.payload.upstreamArtifacts.map UpstreamArtifact.locale)
  let product_name ← get_product_name task config true
  .ok { upload_date := formatted_upload_date,
        version := version,
        branch := release_props.branch,
        product := appName,
        stage_platform := release_props.stage_platform,
        platform := release_props.platform,
        buildid := release_props.buildid,
        partials := get_partials_props task,
        filename_platform := pyDictGetD NORMALIZED_FILENAME_PLATFORMS
          release_props.stage_platform release_props.stage_platform,
        build_number := build_number,
        locales := locales,
        template_key := select_template_key product_name tmpl_bucket locales }

/-! ### Upload orchestrator (`utils.py` lines 339-355) -/

/-- The exception carried by a finished upload operation, if any. -/
def errOf : Except PyError Unit → Option PyError
  | .error e => some e
  | .ok _ => none

/-- Modelled from the spec: `scriptworker.utils.raise_future_exceptions` (an
external collaborator not under `src/`) awaits all pending upload operations
and propagates the first exception when any upload failed (spec section 4.7,
fail-fast policy). -/
def raise_future_exceptions (tasks : List (Except PyError Unit)) :
    Except PyError (List Unit) :=
  match tasks.findSome? errOf with
  | some e => .error e
  | none => .ok (tasks.map (fun _ => ()))

/-- Modelled from the spec: `scriptworker.utils.get_results_and_future_exceptions`
(an external collaborator not under `src/`) awaits all operations to
completion and returns the results together with the collected exceptions,
raising nothing (spec section 4.7, best-effort policy). -/
def get_results_and_future_exceptions (tasks : List (Except PyError Unit)) :
    List Unit × List PyError :=
  (tasks.filterMap (fun t => match t with | .ok u => some u | .error _ => none),
    tasks.filterMap errOf)

/-- `utils.get_fail_task_on_error` (utils.py lines 339-340):
`clouds_config[cloud][release_bucket].get("fail_task_on_error")`; the two
indexing steps raise `KeyError` when absent. -/
def get_fail_task_on_error (clouds_config : CloudsConfig)
    (release_bucket cloud : String) : Except PyError (Option Bool) := do
  let buckets ← pyDictGet clouds_config cloud
  let bc ← pyDictGet buckets release_bucket
  .ok bc.fail_task_on_error

/-- `utils.await_and_raise_uploads` (utils.py lines 343-355): per cloud with
queued uploads, either propagate the first failure (fail-fast) or collect and
log every exception as a warning.  The embedding returns the list of logged
warnings on a normal run. -/
def await_and_raise_uploads
    (cloud_uploads : List (String × List (Except PyError Unit)))
    (clouds_config : CloudsConfig) (release_bucket : String) :
    Except PyError (List PyError) :=
  match cloud_uploads with
  | [] => .ok []
  | (cloud, uploads) :: rest =>
    if uploads.length = 0 then await_and_raise_uploads rest clouds_config release_bucket
    else
      match get_fail_task_on_error clouds_config release_bucket cloud with
      | .error e => .error e
      | .ok flag =>
        if flag.getD false then
          match raise_future_exceptions uploads with
          | .error e => .error e
          | .ok _ => await_and_raise_uploads rest clouds_config release_bucket
        else
          match await_and_raise_uploads rest clouds_config release_bucket with
          | .error e => .error e
          | .ok restWarned =>
            .ok ((get_results_and_future_exceptions uploads).2 ++ restWarned)

/-! ### Exclusion patterns (`utils.matches_exclude`, `constants.RELEASE_EXCLUDE`) -/

/-- Elements of the regular expressions of `RELEASE_EXCLUDE`: literal
characters, `.` (any character but newline), `.*`, an optional literal group
`( lits )?`, and the anchored negative lookahead `(?! .* lits )`. -/
inductive RElem where
  | lit (c : Char)
  | dot
  | dotStar
  | optLits (g : List Char)
  | negLookaheadContains (g : List Char)
deriving DecidableEq, Repr

/-- A pattern as used with `re.search`: optional `^` and `$` anchors around a
sequence of elements. -/
structure RPattern where
  caret : Bool
  dollar : Bool
  elems : List RElem
deriving DecidableEq, Repr

/-- Does `.* g` match at the current position: `g` occurs at or after it,
with no newline crossed before the occurrence. -/
def searchLits (g : List Char) : List Char → Bool
  | [] => isPrefixList g []
  | c :: s2 => isPrefixList g (c :: s2) || (!(c == '\n') && searchLits g s2)

/-- The suffixes reachable from `s` by consuming non-newline characters
(the positions `.*` can reach). -/
def suffixesNoNewline : List Char → List (List Char)
  | [] => [[]]
  | c :: s2 => (c :: s2) :: (if c == '\n' then [] else suffixesNoNewline s2)

/-- All suffixes of `s` (the start positions `re.search` scans). -/
def allSuffixes : List Char → List (List Char)
  | [] => [[]]
  | c :: s2 => (c :: s2) :: allSuffixes s2

/-- Backtracking matcher for an element sequence against the input, with a
continuation receiving the rest of the input. -/
def matchElems : List RElem → List Char → (List Char → Bool) → Bool
  | [], s, k => k s
  | .lit c :: es, s, k =>
    (match s with
     | [] => false
     | c2 :: s2 => c == c2 && matchElems es s2 k)
  | .dot :: es, s, k =>
    (match s with
     | [] => false
     | c2 :: s2 => !(c2 == '\n') && matchElems es s2 k)
  | .dotStar :: es, s, k => (suffixesNoNewline s).any (fun s2 => matchElems es s2 k)
  | .optLits g :: es, s, k =>
    (match stripPrefixList g s with
     | some rest => matchElems es rest k
     | none => false) || matchElems es s k
  | .negLookaheadContains g :: es, s, k => !searchLits g s && matchElems es s k

/-- Python `re.search(pattern, s) is not None` for the supported pattern
shapes: `$` accepts the end of input or a single final newline; without `^`
every start position is tried. -/
def re_search (p : RPattern) (s : String) : Bool :=
  let k : List Char → Bool :=
    if p.dollar then (fun rest => rest.isEmpty || rest == ['\n']) else (fun _ => true)
  if p.caret then matchElems p.elems s.data k
  else (allSuffixes s.data).any (fun s2 => matchElems p.elems s2 k)

/-- The literal characters of a string as pattern elements. -/
def lits (s : String) : List RElem := s.data.map RElem.lit

/-- `constants.py` `RELEASE_EXCLUDE` (lines 98-113), each regular expression
compiled to the element syntax above (a `\.` escape is a literal dot; the dot
in `^.*.checksums...` and `^.*robocop.apk$` is unescaped in the source and
kept as the any-character element; `^.*contrib.*` has no `$`). -/
def RELEASE_EXCLUDE : List RPattern := [
  { caret := true, dollar := true, elems := [.dotStar] ++ lits "tests" ++ [.dotStar] },
  { caret := true, dollar := true, elems := [.dotStar] ++ lits "crashreporter" ++ [.dotStar] },
  { caret := true, dollar := true, elems :=
      [.negLookaheadContains ("jsshell-".data), .dotStar] ++ lits ".zip" ++
        [.optLits (".asc".data)] },
  { caret := true, dollar := true, elems := [.dotStar] ++ lits ".log" },
  { caret := true, dollar := true, elems := [.dotStar] ++ lits ".txt" },
  { caret := true, dollar := true, elems := [.dotStar] ++ lits "/partner-repacks" ++ [.dotStar] },
  { caret := true, dollar := true, elems :=
      [.dotStar, .dot] ++ lits "checksums" ++ [.optLits (".asc".data)] },
  { caret := true, dollar := true, elems := [.dotStar] ++ lits "/logs/" ++ [.dotStar] },
  { caret := true, dollar := true, elems := [.dotStar] ++ lits "json" },
  { caret := true, dollar := true, elems := [.dotStar] ++ lits "/host" ++ [.dotStar] },
  { caret := true, dollar := true, elems := [.dotStar] ++ lits "/mar-tools/" ++ [.dotStar] },
  { caret := true, dollar := true, elems := [.dotStar] ++ lits "robocop" ++ [.dot] ++ lits "apk" },
  { caret := true, dollar := false, elems := [.dotStar] ++ lits "contrib" ++ [.dotStar] },
  { caret := true, dollar := true, elems := [.dotStar] ++ lits "/beetmover-checksums/" ++ [.dotStar] }]

/-- `utils.matches_exclude` (utils.py lines 311-315): true as soon as some
pattern matches the key name. -/
def matches_exclude (keyname : String) (excludes : List RPattern) : Bool :=
  match excludes with
  | [] => false
  | e :: rest => if re_search e keyname then true else matches_exclude keyname rest

/-! ### Artifact-map lookups (`utils.py` lines 391-409) -/

/-- `utils.extract_full_artifact_map_path` (utils.py lines 391-398): first
path of a matching-locale entry that ends with `basepath`; `None` when no
entry matches (the function just falls off the loop). -/
def extract_full_artifact_map_path (artifact_map : List ArtifactMapEntry)
    (basepath locale : String) : Option String :=
  match artifact_map with
  | [] => none
  | entry :: rest =>
    if entry.locale == locale then
      match (entry.paths.map Prod.fst).find? (fun p => strEndsWith p basepath) with
      | some p => some p
      | none => extract_full_artifact_map_path rest basepath locale
    else extract_full_artifact_map_path rest basepath locale

/-- `utils.extract_file_config_from_artifact_map` (utils.py lines 401-409):
returns the path config of the entry matching `(taskId, locale, path)`;
raises `TaskVerificationError` when no entry matches. -/
def extract_file_config_from_artifact_map (artifact_map : List ArtifactMapEntry)
    (path task_id locale : String) : Except PyError FileConfig :=
  match artifact_map with
  | [] => .error (.taskVerificationError
      ("No artifact map entry for " ++ task_id ++ "/" ++ locale ++ " " ++ path))
  | entry :: rest =>
    if entry.taskId == task_id && entry.locale == locale then
      match pyDictFind entry.paths path with
      | some cfg => .ok cfg
      | none => extract_file_config_from_artifact_map rest path task_id locale
    else extract_file_config_from_artifact_map rest path task_id locale

/-! ## Theorems -/

/-- A string never equals itself with the `_repacks` suffix appended. -/
theorem ne_append_repacks (s : String) : s ≠ s ++ "_repacks" := by
  intro h
  have hlen := congrArg String.length h
  rw [String.length_append] at hlen
  have h8 : ("_repacks" : String).length = 8 := rfl
  rw [h8] at hlen
  omega

/-- One destination passes the maven check iff its last folder equals the
version and its file name contains it. -/
theorem checkMavenDest_ok_iff (v d : String) :
    checkMavenDest v d = .ok () ↔
      (os_path_basename (os_path_split d).1 = v ∧
        strContains (os_path_split d).2 v = true) := by
  simp only [checkMavenDest]
  split_ifs with h1 h2
  · exact iff_of_false (by simp) (fun hc => h1 hc.1.symm)
  · exact iff_of_false (by simp)
      (fun hc => by rw [hc.2] at h2; simp at h2)
  · refine iff_of_true rfl ⟨(not_ne_iff.mp h1).symm, ?_⟩
    simpa using h2

/-- A destination list passes the maven check iff every destination does. -/
theorem checkMavenDests_ok_iff (v : String) (ds : List String) :
    checkMavenDests v ds = .ok () ↔ ∀ d ∈ ds, checkMavenDest v d = .ok () := by
  induction ds with
  | nil => simp [checkMavenDests]
  | cons d ds ih =>
    rw [checkMavenDests]
    cases hd : checkMavenDest v d with
    | error e => simp [hd]
    | ok u => cases u; simp [hd, ih]

/-- A path mapping passes the maven check iff every destination of every
config does. -/
theorem checkMavenPaths_ok_iff (v : String) (ps : List (String × FileConfig)) :
    checkMavenPaths v ps = .ok () ↔
      ∀ pc ∈ ps, ∀ d ∈ pc.2.destinations, checkMavenDest v d = .ok () := by
  induction ps with
  | nil => simp [checkMavenPaths]
  | cons pc ps ih =>
    obtain ⟨src, cfg⟩ := pc
    rw [checkMavenPaths]
    cases hd : checkMavenDests v cfg.destinations with
    | error e =>
      simp only [hd]
      refine iff_of_false (by simp) (fun hc => ?_)
      have := (checkMavenDests_ok_iff v cfg.destinations).mpr
        (fun d hdm => hc (src, cfg) (List.mem_cons_self _ _) d hdm)
      rw [this] at hd
      exact Except.noConfusion hd
    | ok u =>
      cases u
      rw [ih]
      constructor
      · intro h pc hmem
        rcases List.mem_cons.mp hmem with rfl | hmem2
        · exact fun d hdm => (checkMavenDests_ok_iff v cfg.destinations).mp hd d hdm
        · exact h pc hmem2
      · intro h pc hmem
        exact h pc (List.mem_cons_of_mem _ hmem)

/-- C2 counterexample: with payload version `42.0`, the destination
`42.0b1/firefox-42.0.exe` has a last folder and a file name that both CONTAIN
the version, yet `check_maven_artifact_map` rejects it, because the code
compares the last folder by equality, not containment. -/
theorem check_maven_contains_not_sufficient :
    strContains "42.0b1" "42.0" = true
    ∧ strContains "firefox-42.0.exe" "42.0" = true
    ∧ os_path_basename (os_path_split "42.0b1/firefox-42.0.exe").1 = "42.0b1"
    ∧ check_maven_artifact_map
        [⟨"t1", "en-US", [("installer", ⟨["42.0b1/firefox-42.0.exe"]⟩)]⟩] "42.0"
        = .error (.scriptWorkerTaskException
            "Name of last folder \x2742.0b1\x27 in path \x2742.0b1/firefox-42.0.exe\x27 does not match payload version \x2742.0\x27") :=
  ⟨by decide, by decide, by decide, by decide⟩

/-- C2 (amended): `check_maven_artifact_map` accepts exactly when every
destination's last directory segment EQUALS the payload version and the
destination's file name CONTAINS it; in particular the destination
`42.0/firefox-42.0.en-US.win64.installer.exe` passes with version `42.0` and
fails with `43.0`, with a verification error naming the mismatched folder. -/
theorem check_maven_artifact_map_version_rule
    (m : List ArtifactMapEntry) (v : String) :
    (check_maven_artifact_map m v = .ok () ↔
      ∀ entry ∈ m, ∀ pc ∈ entry.paths, ∀ dest ∈ pc.2.destinations,
        os_path_basename (os_path_split dest).1 = v ∧
          strContains (os_path_split dest).2 v = true)
    ∧ check_maven_artifact_map
        [⟨"t1", "en-US", [("installer", ⟨["42.0/firefox-42.0.en-US.win64.installer.exe"]⟩)]⟩]
        "42.0" = .ok ()
    ∧ check_maven_artifact_map
        [⟨"t1", "en-US", [("installer", ⟨["42.0/firefox-42.0.en-US.win64.installer.exe"]⟩)]⟩]
        "43.0" = .error (.scriptWorkerTaskException
          "Name of last folder \x2742.0\x27 in path \x2742.0/firefox-42.0.en-US.win64.installer.exe\x27 does not match payload version \x2743.0\x27") := by
  refine ⟨?_, by decide, by decide⟩
  induction m with
  | nil => simp [check_maven_artifact_map]
  | cons entry rest ih =>
    rw [check_maven_artifact_map]
    cases hp : checkMavenPaths v entry.paths with
    | error e =>
      refine iff_of_false (by simp) (fun hc => ?_)
      have := (checkMavenPaths_ok_iff v entry.paths).mpr
        (fun pc hpc d hdm =>
          (checkMavenDest_ok_iff v d).mpr (hc entry (List.mem_cons_self _ _) pc hpc d hdm))
      rw [this] at hp
      exact Except.noConfusion hp
    | ok u =>
      cases u
      rw [ih]
      constructor
      · intro h entry2 hmem
        rcases List.mem_cons.mp hmem with rfl | hmem2
        · exact fun pc hpc d hdm =>
            (checkMavenDest_ok_iff v d).mp
              ((checkMavenPaths_ok_iff v entry2.paths).mp hp pc hpc d hdm)
        · exact h entry2 hmem2
      · intro h entry2 hmem
        exact h entry2 (List.mem_cons_of_mem _ hmem)

/-- C1: scope resolution does not fail with the aggregated
`ScriptWorkerTaskException` when zero scopes match the configured prefixes:
both `get_task_resource` and `get_task_action` crash with `IndexError`
(the empty-scope guard is vacuously satisfied and `resources[0]` /
`actions[0]` is evaluated on an empty list), while the multiple-match case
does raise the single aggregated verification error. -/
theorem scope_resolution_zero_match_crashes :
    get_task_resource ["project:releng:beetmover:action:push-to-nightly"] "bucket"
        ⟨["project:releng:beetmover"], []⟩ = .error .indexError
    ∧ get_task_action ["project:releng:beetmover:bucket:nightly"]
        ⟨["project:releng:beetmover"], []⟩ none = .error .indexError
    ∧ (∀ msg, PyError.indexError = PyError.scriptWorkerTaskException msg → False)
    ∧ get_task_resource
        ["project:releng:beetmover:bucket:dep", "project:releng:beetmover:bucket:release"]
        "bucket"
        ⟨["project:releng:beetmover"],
          [("gcs", [("dep", ⟨some true, none⟩), ("release", ⟨some true, none⟩)])]⟩
        = .error (.scriptWorkerTaskException "Only one resource can be used") := by
  refine ⟨by decide, by decide, ?_, by decide⟩
  intro msg h
  exact PyError.noConfusion h

/-- C3 counterexample: the epoch string `1633046400` is reformatted to
`2021/10/2021-10-01-00-00-00` — the `YYYY/MM/YYYY-MM-DD-HH-mm-ss` shape with
a month segment — not to the claimed `YYYY/YYYY-MM-DD-HH-mm-ss` shape, which
for this instant would be `2021/2021-10-01-00-00-00`. -/
theorem upload_date_not_claimed_form :
    format_upload_date "1633046400" = .ok "2021/10/2021-10-01-00-00-00"
    ∧ ("2021/10/2021-10-01-00-00-00" : String) ≠ "2021/2021-10-01-00-00-00" :=
  ⟨by decide, by decide⟩

/-- C3 (amended): upload dates are reformatted to
`YYYY/MM/YYYY-MM-DD-HH-mm-ss`; the epoch string `1633046400` and the
slash-delimited path `some/path/2021-10-01-00-00-00` denote the same instant
and both normalize to the same string `2021/10/2021-10-01-00-00-00`. -/
theorem upload_date_normalization :
    format_upload_date "1633046400" = .ok "2021/10/2021-10-01-00-00-00"
    ∧ format_upload_date "some/path/2021-10-01-00-00-00"
        = .ok "2021/10/2021-10-01-00-00-00"
    ∧ format_upload_date "1633046400"
        = format_upload_date "some/path/2021-10-01-00-00-00" :=
  ⟨by decide, by decide, by decide⟩

/-- C4: the template key is `{product}_{bucket}_repacks` exactly when the
resolved locale set is non-empty and disjoint from `{"en-US", "multi"}`, and
`{product}_{bucket}` otherwise; locales `{"fr"}` with product `firefox` and
bucket `candidates` give `firefox_candidates_repacks`, while `{"en-US"}`
gives `firefox_candidates`. -/
theorem template_key_selection_rule (p b : String) (ls : List String) :
    (select_template_key p b (some ls) = p ++ "_" ++ b ++ "_repacks" ↔
      (ls ≠ [] ∧ ∀ l ∈ ls, l ≠ "en-US" ∧ l ≠ "multi"))
    ∧ (select_template_key p b (some ls) =
        if ls ≠ [] ∧ ∀ l ∈ ls, l ≠ "en-US" ∧ l ≠ "multi"
        then p ++ "_" ++ b ++ "_repacks" else p ++ "_" ++ b)
    ∧ select_template_key p b none = p ++ "_" ++ b
    ∧ select_template_key "firefox" "candidates" (some ["fr"])
        = "firefox_candidates_repacks"
    ∧ select_template_key "firefox" "candidates" (some ["en-US"])
        = "firefox_candidates" := by
  have hcond :
      ((!ls.isEmpty && ls.all (fun l => !(l == "en-US") && !(l == "multi"))) = true) ↔
        (ls ≠ [] ∧ ∀ l ∈ ls, l ≠ "en-US" ∧ l ≠ "multi") := by
    simp [List.all_eq_true, List.isEmpty_iff]
  have h2 : select_template_key p b (some ls) =
      if ls ≠ [] ∧ ∀ l ∈ ls, l ≠ "en-US" ∧ l ≠ "multi"
      then p ++ "_" ++ b ++ "_repacks" else p ++ "_" ++ b := by
    by_cases hc : ls ≠ [] ∧ ∀ l ∈ ls, l ≠ "en-US" ∧ l ≠ "multi"
    · rw [if_pos hc]
      simp only [select_template_key]
      rw [if_pos (hcond.mpr hc)]
    · rw [if_neg hc]
      simp only [select_template_key]
      rw [if_neg (fun hh => hc (hcond.mp hh))]
  refine ⟨?_, h2, rfl, by decide, by decide⟩
  constructor
  · intro h
    by_contra hc
    rw [h2, if_neg hc] at h
    exact ne_append_repacks (p ++ "_" ++ b) h
  · intro hc
    rw [h2, if_pos hc]

/-- The lexicographic comparison is total. -/
theorem charListLeb_total : ∀ a b, charListLeb a b = true ∨ charListLeb b a = true
  | [], _ => Or.inl rfl
  | _ :: _, [] => Or.inr rfl
  | x :: xs, y :: ys => by
    rcases lt_trichotomy x y with h | h | h
    · left; simp [charListLeb, h]
    · subst h
      rcases charListLeb_total xs ys with ih | ih
      · left; simp [charListLeb, lt_irrefl, ih]
      · right; simp [charListLeb, lt_irrefl, ih]
    · right; simp [charListLeb, h]

/-- The lexicographic comparison is transitive. -/
theorem charListLeb_trans : ∀ a b c, charListLeb a b = true → charListLeb b c = true →
    charListLeb a c = true
  | [], _, _, _, _ => rfl
  | _ :: _, [], _, h1, _ => by simp [charListLeb] at h1
  | _ :: _, _ :: _, [], _, h2 => by simp [charListLeb] at h2
  | x :: xs, y :: ys, z :: zs, h1, h2 => by
    simp only [charListLeb] at h1 h2 ⊢
    by_cases hxy : x < y
    · by_cases hyz : y < z
      · simp [lt_trans hxy hyz]
      · by_cases hzy : z < y
        · simp [hyz, hzy] at h2
        · have hyz' : y = z := le_antisymm (le_of_not_lt hzy) (le_of_not_lt hyz)
          subst hyz'
          simp [hxy]
    · by_cases hyx : y < x
      · simp [hxy, hyx] at h1
      · have hxy' : x = y := le_antisymm (le_of_not_lt hyx) (le_of_not_lt hxy)
        subst hxy'
        simp [lt_irrefl] at h1
        by_cases hxz : x < z
        · simp [hxz]
        · by_cases hzx : z < x
          · simp [hxz, hzx] at h2
          · simp [hxz, hzx] at h2 ⊢
            exact charListLeb_trans xs ys zs h1 h2

/-- The lexicographic comparison is antisymmetric. -/
theorem charListLeb_antisymm : ∀ a b, charListLeb a b = true → charListLeb b a = true →
    a = b
  | [], [], _, _ => rfl
  | [], _ :: _, _, h2 => by simp [charListLeb] at h2
  | _ :: _, [], h1, _ => by simp [charListLeb] at h1
  | x :: xs, y :: ys, h1, h2 => by
    simp only [charListLeb] at h1 h2
    by_cases hxy : x < y
    · simp [hxy, lt_asymm hxy] at h2
    · by_cases hyx : y < x
      · simp [hxy, hyx] at h1
      · have hxy' : x = y := le_antisymm (le_of_not_lt hyx) (le_of_not_lt hxy)
        subst hxy'
        simp [lt_irrefl] at h1 h2
        rw [charListLeb_antisymm xs ys h1 h2]

/-- String comparison is total. -/
theorem strLeb_total (a b : String) : strLeb a b = true ∨ strLeb b a = true :=
  charListLeb_total a.data b.data

/-- String comparison is transitive. -/
theorem strLeb_trans {a b c : String} (h1 : strLeb a b = true)
    (h2 : strLeb b c = true) : strLeb a c = true :=
  charListLeb_trans a.data b.data c.data h1 h2

/-- String comparison is antisymmetric. -/
theorem strLeb_antisymm {a b : String} (h1 : strLeb a b = true)
    (h2 : strLeb b a = true) : a = b := by
  cases a with
  | mk la =>
    cases b with
    | mk lb =>
      exact congrArg String.mk (charListLeb_antisymm la lb h1 h2)

instance : IsTotal String (fun a b => strLeb a b = true) := ⟨strLeb_total⟩

instance : IsTrans String (fun a b => strLeb a b = true) :=
  ⟨fun _ _ _ => strLeb_trans⟩

instance : IsTotal (String × List (String × String)) checksumLe :=
  ⟨fun a b => strLeb_total a.1 b.1⟩

instance : IsTrans (String × List (String × String)) checksumLe :=
  ⟨fun _ _ _ => strLeb_trans⟩

/-- Raising or not in `_check_locale_consistency`, characterized: it raises a
`TaskVerificationError` exactly when the unique upstream locales number more
than one, or are a single locale different from the payload one. -/
theorem check_locale_consistency_tve_iff : ∀ (l : String) (uniques : List String),
    isTaskVerificationError (_check_locale_consistency l uniques) = true ↔
      (uniques.length > 1 ∨ ∃ u, uniques = [u] ∧ u ≠ l)
  | l, [] => by simp [_check_locale_consistency, isTaskVerificationError]
  | l, [u] => by
    by_cases h : l = u
    · subst h
      simp [_check_locale_consistency, isTaskVerificationError]
    · simp [_check_locale_consistency, isTaskVerificationError, h, Ne.symm h]
  | l, u :: v :: rest => by
    have hlen : (u :: v :: rest).length > 1 := by simp
    simp only [_check_locale_consistency]
    rw [if_pos hlen]
    simp [isTaskVerificationError, hlen]

/-- Every `Except PyError Unit` propagated through the ok-continuation keeps
its `TaskVerificationError` status. -/
theorem isTVE_match_propagate (x : Except PyError Unit) (v : Option (List String)) :
    isTaskVerificationError
        (match x with
         | .error e => (.error e : Except PyError (Option (List String)))
         | .ok _ => .ok v) = isTaskVerificationError x := by
  cases x with
  | error e => cases e <;> rfl
  | ok u => rfl

/-- With a payload locale and a non-empty upstream locale set,
`resolve_locales` runs the consistency check and otherwise returns the
sorted unique upstream locales. -/
theorem resolve_locales_some_nonempty (l : String) (upstream : List (Option String))
    (hne : sortedUnique (upstream.filterMap id) ≠ []) :
    resolve_locales (some l) upstream =
      match _check_locale_consistency l (sortedUnique (upstream.filterMap id)) with
      | .error e => .error e
      | .ok _ => .ok (some (sortedUnique (upstream.filterMap id))) := by
  have hfalse : (sortedUnique (upstream.filterMap id)).isEmpty = false := by
    rw [Bool.eq_false_iff]
    intro h
    exact hne (List.isEmpty_iff.mp h)
  simp only [resolve_locales, hfalse, Bool.not_false, if_true]

/-- C5: when the payload declares a singular locale and the upstream
artifacts declare at least one locale, template-argument building raises a
`TaskVerificationError` exactly when more than one distinct upstream locale
exists, or exactly one exists and differs from the payload locale; when they
agree, the locales template argument is the sorted unique upstream set. -/
theorem locale_consistency_rule (l : String) (upstream : List (Option String))
    (hne : sortedUnique (upstream.filterMap id) ≠ []) :
    (isTaskVerificationError (resolve_locales (some l) upstream) = true ↔
      ((sortedUnique (upstream.filterMap id)).length > 1 ∨
        ∃ u, sortedUnique (upstream.filterMap id) = [u] ∧ u ≠ l))
    ∧ (sortedUnique (upstream.filterMap id) = [l] →
        resolve_locales (some l) upstream =
          .ok (some (sortedUnique (upstream.filterMap id)))) := by
  have hres := resolve_locales_some_nonempty l upstream hne
  constructor
  · rw [hres, isTVE_match_propagate, check_locale_consistency_tve_iff]
  · intro heq
    rw [hres, heq]
    have hok : _check_locale_consistency l [l] = .ok () := by
      simp [_check_locale_consistency]
    rw [hok]

/-- C5 witness: a matching payload/upstream locale passes and yields the
sorted locale list; two distinct upstream locales against a singular payload
locale raise the verification error. -/
theorem locale_consistency_rule_witness :
    resolve_locales (some "fr") [some "fr"] = .ok (some ["fr"])
    ∧ isTaskVerificationError (resolve_locales (some "en-US") [some "fr", some "de"]) = true := by
  constructor
  · have h := (locale_consistency_rule "fr" [some "fr"] (by decide)).2 (by decide)
    rw [h]
    decide
  · exact (locale_consistency_rule "en-US" [some "fr", some "de"] (by decide)).1.mpr
      (Or.inl (by decide))

/-- A `dict.get(k, d)` lookup whose key is absent returns the default. -/
theorem pyDictGetD_absent {β : Type} (d : List (String × β)) (k : String) (dflt : β)
    (h : ∀ q ∈ d, q.1 ≠ k) : pyDictGetD d k dflt = dflt := by
  unfold pyDictGetD pyDictFind
  rw [List.find?_eq_none.mpr (fun q hq => by simp [h q hq])]
  rfl

/-- C6: a stage platform absent from a normalization table passes through
unchanged and raises nothing: `get_release_props` keeps the raw platform as
both `platform` and `stage_platform` when `STAGE_PLATFORM_MAP` has no entry
for it, and the filename-platform lookup in template-argument building
returns the raw stage platform when `NORMALIZED_FILENAME_PLATFORMS` has no
entry for it. -/
theorem platform_normalization_identity_fallback (s : String)
    (rp : PayloadReleaseProps) (hrp : rp.platform = some s)
    (h1 : ∀ q ∈ STAGE_PLATFORM_MAP, q.1 ≠ s)
    (h2 : ∀ q ∈ NORMALIZED_FILENAME_PLATFORMS, q.1 ≠ s) :
    get_release_props (some rp) STAGE_PLATFORM_MAP =
      .ok { appName := rp.appName, platform := s, stage_platform := s,
            branch := rp.branch, appVersion := rp.appVersion, buildid := rp.buildid }
    ∧ pyDictGetD NORMALIZED_FILENAME_PLATFORMS s s = s := by
  constructor
  · simp only [get_release_props, hrp, Option.getD_some]
    rw [pyDictGetD_absent _ _ _ h1]
  · exact pyDictGetD_absent _ _ _ h2

/-- C6 witness: the table-free platform `sparc64-weird` falls through both
normalization lookups unchanged. -/
theorem platform_normalization_identity_fallback_witness :
    get_release_props
        (some { appName := some "firefox", platform := some "sparc64-weird",
                branch := "mozilla-central", appVersion := "100.0",
                buildid := "20211001000000" }) STAGE_PLATFORM_MAP =
      .ok { appName := some "firefox", platform := "sparc64-weird",
            stage_platform := "sparc64-weird", branch := "mozilla-central",
            appVersion := "100.0", buildid := "20211001000000" }
    ∧ pyDictGetD NORMALIZED_FILENAME_PLATFORMS "sparc64-weird" "sparc64-weird"
        = "sparc64-weird" :=
  platform_normalization_identity_fallback "sparc64-weird" _ rfl
    (by decide) (by decide)

/-- Two sorted checksum item lists that are permutations of each other with
duplicate-free keys are equal. -/
theorem sorted_perm_nodup_keys_eq :
    ∀ (l₁ l₂ : List (String × List (String × String))), l₁.Perm l₂ →
      l₁.Sorted checksumLe → l₂.Sorted checksumLe →
      (l₁.map Prod.fst).Nodup → l₁ = l₂
  | [], _, hp, _, _, _ => hp.nil_eq
  | a :: t, l₂, hp, hs₁, hs₂, hnd => by
    rw [List.map_cons, List.nodup_cons] at hnd
    cases l₂ with
    | nil => exact absurd hp.eq_nil (by simp)
    | cons b t₂ =>
      have hab : a = b := by
        have hbmem : b ∈ a :: t := hp.mem_iff.mpr (List.mem_cons_self b t₂)
        have hamem : a ∈ b :: t₂ := hp.mem_iff.mp (List.mem_cons_self a t)
        rcases List.mem_cons.mp hbmem with hba | hbt
        · exact hba.symm
        · rcases List.mem_cons.mp hamem with hab2 | hat₂
          · exact hab2
          · have hk1 : strLeb a.1 b.1 = true := List.rel_of_sorted_cons hs₁ b hbt
            have hk2 : strLeb b.1 a.1 = true := List.rel_of_sorted_cons hs₂ a hat₂
            have hk : a.1 = b.1 := strLeb_antisymm hk1 hk2
            exfalso
            have hmem : a.1 ∈ t.map Prod.fst := List.mem_map.mpr ⟨b, hbt, hk.symm⟩
            exact hnd.1 hmem
      subst hab
      have ht : t = t₂ :=
        sorted_perm_nodup_keys_eq t t₂ hp.cons_inv
          (List.sorted_cons.mp hs₁).2 (List.sorted_cons.mp hs₂).2 hnd.2
      rw [ht]

/-- On a well-formed per-artifact dict, the inner loop produces exactly one
line per algorithm. -/
theorem checksumLinesFor_ok (artifact : String) (values : List (String × String)) :
    ∀ (algos : List String),
      (∀ algo ∈ algos, (pyDictFind values algo).isSome = true) →
      (pyDictFind values "size").isSome = true →
      checksumLinesFor artifact values algos =
        .ok (algos.map (fun algo =>
          pyDictGetD values algo "" ++ " " ++ algo ++ " " ++
            pyDictGetD values "size" "" ++ " " ++ artifact))
  | [], _, _ => rfl
  | algo :: rest, hall, hsize => by
    obtain ⟨d, hd⟩ := Option.isSome_iff_exists.mp (hall algo (List.mem_cons_self _ _))
    obtain ⟨sz, hsz⟩ := Option.isSome_iff_exists.mp hsize
    have ih := checksumLinesFor_ok artifact values rest
      (fun a ha => hall a (List.mem_cons_of_mem _ ha)) hsize
    simp [checksumLinesFor, pyDictGet, exceptOfOption, hd, hsz, ih, pyDictGetD]

/-- On a well-formed checksums dict, the outer loop produces the
concatenation of the per-artifact lines. -/
theorem buildChecksumContent_ok (algos : List String) :
    ∀ (items : List (String × List (String × String))),
      (∀ p ∈ items, (∀ algo ∈ algos, (pyDictFind p.2 algo).isSome = true) ∧
        (pyDictFind p.2 "size").isSome = true) →
      buildChecksumContent algos items =
        .ok (items.flatMap (fun p => algos.map (fun algo =>
          pyDictGetD p.2 algo "" ++ " " ++ algo ++ " " ++
            pyDictGetD p.2 "size" "" ++ " " ++ p.1)))
  | [], _ => rfl
  | (artifact, values) :: rest, h => by
    have h1 := h (artifact, values) (List.mem_cons_self _ _)
    have hlines := checksumLinesFor_ok artifact values algos h1.1 h1.2
    have ih := buildChecksumContent_ok algos rest
      (fun p hp => h p (List.mem_cons_of_mem _ hp))
    simp [buildChecksumContent, hlines, ih]

/-- The length of a flat map of constant-length blocks. -/
theorem length_flatMap_blocks {α γ : Type} : ∀ (l : List α) (as : List γ)
    (f : α → γ → String),
    (l.flatMap (fun p => as.map (f p))).length = l.length * as.length
  | [], _, _ => by simp
  | a :: t, as, f => by
    simp [length_flatMap_blocks t as f, Nat.succ_mul, Nat.add_comm]

/-- C7: the checksums manifest serializes one line
`{digest} {algo} {size} {artifact}` per (artifact, algorithm) pair, with the
artifacts sorted by name, and it is deterministic: any two permutations of
the same checksums dict produce byte-identical output. -/
theorem checksums_manifest_sorted_deterministic
    (c₁ c₂ : List (String × List (String × String))) (algos : List String)
    (hwf : ChecksumsWF c₁ algos) (hperm : c₁.Perm c₂)
    (hnd : (c₁.map Prod.fst).Nodup) :
    generate_checksums_manifest c₁ algos =
      .ok (strIntercalate "\n" (manifestLines c₁ algos))
    ∧ (manifestLines c₁ algos).length = c₁.length * algos.length
    ∧ List.Sorted (fun a b => strLeb a b = true) ((sortChecksumItems c₁).map Prod.fst)
    ∧ generate_checksums_manifest c₁ algos = generate_checksums_manifest c₂ algos := by
  have hsortwf : ∀ p ∈ sortChecksumItems c₁,
      (∀ algo ∈ algos, (pyDictFind p.2 algo).isSome = true) ∧
        (pyDictFind p.2 "size").isSome = true := by
    intro p hp
    simp only [sortChecksumItems] at hp
    rw [List.mem_insertionSort] at hp
    exact hwf p hp
  have hbuild := buildChecksumContent_ok algos (sortChecksumItems c₁) hsortwf
  refine ⟨?_, ?_, ?_, ?_⟩
  · simp only [generate_checksums_manifest, hbuild, manifestLines]
  · rw [manifestLines, length_flatMap_blocks]
    simp [sortChecksumItems]
  · have hs := List.sorted_insertionSort checksumLe c₁
    simp only [sortChecksumItems]
    exact List.Pairwise.map Prod.fst (fun a b h => h) hs
  · have hsorteq : sortChecksumItems c₁ = sortChecksumItems c₂ := by
      apply sorted_perm_nodup_keys_eq
      · exact (List.perm_insertionSort checksumLe c₁).trans
          (hperm.trans (List.perm_insertionSort checksumLe c₂).symm)
      · exact List.sorted_insertionSort checksumLe c₁
      · exact List.sorted_insertionSort checksumLe c₂
      · have hpm : List.Perm ((sortChecksumItems c₁).map Prod.fst) (c₁.map Prod.fst) :=
          (List.perm_insertionSort checksumLe c₁).map Prod.fst
        exact hpm.nodup_iff.mpr hnd
    unfold generate_checksums_manifest
    rw [hsorteq]

/-- C7 witness: a concrete two-artifact dict is well-formed, and swapping its
two entries leaves the generated manifest unchanged. -/
theorem checksums_manifest_sorted_deterministic_witness :
    ChecksumsWF [("b.exe", [("sha512", "dd"), ("size", "10")]),
        ("a.exe", [("sha512", "cc"), ("size", "20")])] ["sha512"]
    ∧ generate_checksums_manifest
        [("b.exe", [("sha512", "dd"), ("size", "10")]),
         ("a.exe", [("sha512", "cc"), ("size", "20")])] ["sha512"]
      = generate_checksums_manifest
        [("a.exe", [("sha512", "cc"), ("size", "20")]),
         ("b.exe", [("sha512", "dd"), ("size", "10")])] ["sha512"] :=
  ⟨by decide,
    (checksums_manifest_sorted_deterministic _ _ _ (by decide) (by decide)
      (by decide)).2.2.2⟩

/-- The best-effort branch of the upload orchestrator: when every listed
cloud is configured without `fail_task_on_error`, the run completes normally
and the warnings are exactly the collected upload exceptions. -/
theorem await_best_effort (cfg : CloudsConfig) (bucket : String) :
    ∀ (cus : List (String × List (Except PyError Unit))),
      (∀ p ∈ cus, ∃ fl, get_fail_task_on_error cfg bucket p.1 = .ok fl ∧
        fl.getD false = false) →
      await_and_raise_uploads cus cfg bucket =
        .ok (cus.flatMap (fun p => p.2.filterMap errOf))
  | [], _ => rfl
  | (cl, ops2) :: rest, hbe => by
    obtain ⟨fl, hfl, hflf⟩ := hbe (cl, ops2) (List.mem_cons_self _ _)
    have ihr := await_best_effort cfg bucket rest
      (fun q hq => hbe q (List.mem_cons_of_mem _ hq))
    by_cases hlen2 : ops2.length = 0
    · have hnil : ops2 = [] := List.length_eq_zero.mp hlen2
      subst hnil
      simp [await_and_raise_uploads, ihr]
    · simp only [await_and_raise_uploads]
      rw [if_neg hlen2, hfl]
      simp [hflf, ihr, get_results_and_future_exceptions]

/-- C8: a fail-fast cloud target aborts the run by propagating the first
upload exception, while best-effort targets are awaited to completion and
return normally with the collected exceptions merely logged as warnings. -/
theorem upload_policy_fail_fast_vs_best_effort
    (cfg : CloudsConfig) (bucket cloud : String)
    (ops : List (Except PyError Unit)) (flag : Option Bool)
    (cus : List (String × List (Except PyError Unit)))
    (hflag : get_fail_task_on_error cfg bucket cloud = .ok flag)
    (hne : ops ≠ [])
    (hbe : ∀ p ∈ cus, ∃ fl, get_fail_task_on_error cfg bucket p.1 = .ok fl ∧
        fl.getD false = false) :
    (flag.getD false = true →
      await_and_raise_uploads [(cloud, ops)] cfg bucket =
        match ops.findSome? errOf with
        | some e => .error e
        | none => .ok [])
    ∧ await_and_raise_uploads cus cfg bucket =
        .ok (cus.flatMap (fun p => p.2.filterMap errOf)) := by
  constructor
  · intro ht
    have hlen : ¬ ops.length = 0 := fun h => hne (List.length_eq_zero.mp h)
    cases hfs : ops.findSome? errOf with
    | some e =>
      simp [await_and_raise_uploads, hlen, hflag, ht, raise_future_exceptions, hfs]
    | none =>
      simp [await_and_raise_uploads, hlen, hflag, ht, raise_future_exceptions, hfs]
  · exact await_best_effort cfg bucket cus hbe

/-- C8 witness: with a fail-fast `gcs` target the failing upload's exception
propagates; with a best-effort `aws` target the run returns normally and the
exception is only collected as a warning. -/
theorem upload_policy_fail_fast_vs_best_effort_witness :
    await_and_raise_uploads [("gcs", [Except.error (PyError.valueError "boom"), Except.ok ()])]
        [("gcs", [("release", ⟨some true, some true⟩)]),
         ("aws", [("release", ⟨some true, some false⟩)])] "release"
      = .error (.valueError "boom")
    ∧ await_and_raise_uploads [("aws", [Except.error (PyError.valueError "boom"), Except.ok ()])]
        [("gcs", [("release", ⟨some true, some true⟩)]),
         ("aws", [("release", ⟨some true, some false⟩)])] "release"
      = .ok [.valueError "boom"] := by
  have h := upload_policy_fail_fast_vs_best_effort
    [("gcs", [("release", ⟨some true, some true⟩)]),
     ("aws", [("release", ⟨some true, some false⟩)])] "release" "gcs"
    [Except.error (PyError.valueError "boom"), Except.ok ()] (some true)
    [("aws", [Except.error (PyError.valueError "boom"), Except.ok ()])]
    (by decide) (by decide)
    (by
      intro p hp
      rcases List.mem_cons.mp hp with rfl | h0
      · exact ⟨some false, by decide, rfl⟩
      · exact absurd h0 (List.not_mem_nil p))
  constructor
  · exact (h.1 rfl).trans (by decide)
  · exact h.2.trans (by decide)

/-- The exclusion loop is the boolean any over the pattern list. -/
theorem matches_exclude_eq_any (k : String) : ∀ (ex : List RPattern),
    matches_exclude k ex = ex.any (fun e => re_search e k)
  | [] => rfl
  | e :: rest => by
    simp only [matches_exclude, List.any_cons]
    by_cases h : re_search e k
    · simp [h]
    · simp [h, matches_exclude_eq_any k rest]

/-- C9: a key is excluded iff at least one pattern matches it (union
semantics), so the result is invariant under any permutation of the pattern
list; under `RELEASE_EXCLUDE` the log key is excluded and the installer
tarball key is not. -/
theorem matches_exclude_union_semantics (keyname : String) (excludes : List RPattern) :
    (matches_exclude keyname excludes = true ↔
      ∃ e ∈ excludes, re_search e keyname = true)
    ∧ (∀ excludes2, excludes.Perm excludes2 →
        matches_exclude keyname excludes = matches_exclude keyname excludes2)
    ∧ matches_exclude "pub/firefox/candidates/100.0-candidates/build1/logs/log.txt"
        RELEASE_EXCLUDE = true
    ∧ matches_exclude "pub/firefox/candidates/100.0-candidates/build1/firefox-100.0.tar.bz2"
        RELEASE_EXCLUDE = false := by
  refine ⟨?_, ?_, by decide, by decide⟩
  · rw [matches_exclude_eq_any, List.any_eq_true]
  · intro ex2 hp
    rw [matches_exclude_eq_any, matches_exclude_eq_any]
    cases h1 : excludes.any (fun e => re_search e keyname) with
    | false =>
      cases h2 : ex2.any (fun e => re_search e keyname) with
      | false => rfl
      | true =>
        rw [List.any_eq_true] at h2
        obtain ⟨e, he, hr⟩ := h2
        have hcontra : excludes.any (fun e => re_search e keyname) = true :=
          List.any_eq_true.mpr ⟨e, hp.mem_iff.mpr he, hr⟩
        rw [h1] at hcontra
        exact Bool.noConfusion hcontra
    | true =>
      rw [List.any_eq_true] at h1
      obtain ⟨e, he, hr⟩ := h1
      exact (List.any_eq_true.mpr ⟨e, hp.mem_iff.mp he, hr⟩).symm

/-- C10: a missing artifact-map entry is fatal only in the config lookup:
`extract_full_artifact_map_path` returns `none` without raising when no
matching-locale entry has a path ending with the base path, while
`extract_file_config_from_artifact_map` raises a `TaskVerificationError`
when no entry matches the `(taskId, locale, path)` triple. -/
theorem artifact_map_missing_lookup
    (m : List ArtifactMapEntry) (basepath locale path task_id : String)
    (h1 : ∀ e ∈ m, e.locale = locale → ∀ q ∈ e.paths,
        strEndsWith q.1 basepath = false)
    (h2 : ∀ e ∈ m, e.taskId = task_id → e.locale = locale →
        pyDictFind e.paths path = none) :
    extract_full_artifact_map_path m basepath locale = none
    ∧ ∃ msg, extract_file_config_from_artifact_map m path task_id locale =
        .error (.taskVerificationError msg) := by
  induction m with
  | nil =>
    exact ⟨rfl,
      ⟨"No artifact map entry for " ++ task_id ++ "/" ++ locale ++ " " ++ path, rfl⟩⟩
  | cons e rest ih =>
    have ih' := ih (fun q hq => h1 q (List.mem_cons_of_mem _ hq))
      (fun q hq => h2 q (List.mem_cons_of_mem _ hq))
    constructor
    · simp only [extract_full_artifact_map_path]
      by_cases hloc : (e.locale == locale) = true
      · rw [if_pos hloc]
        have hfind : (e.paths.map Prod.fst).find?
            (fun p => strEndsWith p basepath) = none := by
          rw [List.find?_eq_none]
          intro x hx
          obtain ⟨q, hq, rfl⟩ := List.mem_map.mp hx
          simp [h1 e (List.mem_cons_self _ _) (by simpa using hloc) q hq]
        rw [hfind]
        exact ih'.1
      · rw [if_neg hloc]
        exact ih'.1
    · simp only [extract_file_config_from_artifact_map]
      by_cases hco : (e.taskId == task_id && e.locale == locale) = true
      · rw [if_pos hco]
        have hparts := Bool.and_eq_true_iff.mp hco
        have h0 := h2 e (List.mem_cons_self _ _) (by simpa using hparts.1)
          (by simpa using hparts.2)
        rw [h0]
        exact ih'.2
      · rw [if_neg hco]
        exact ih'.2

/-- C10 witness: a one-entry map with a different locale yields `None` from
the path lookup and a `TaskVerificationError` from the config lookup. -/
theorem artifact_map_missing_lookup_witness :
    extract_full_artifact_map_path
        [⟨"t1", "de", [("public/build/target.zip", ⟨["dest"]⟩)]⟩]
        "target.apk" "en-US" = none
    ∧ ∃ msg, extract_file_config_from_artifact_map
        [⟨"t1", "de", [("public/build/target.zip", ⟨["dest"]⟩)]⟩]
        "public/build/target.apk" "t1" "en-US"
        = .error (.taskVerificationError msg) :=
  artifact_map_missing_lookup _ _ _ _ _ (by decide) (by decide)

end Beetmover
